import Mathlib

/-!
Verification of the telephony/AI relay in src/main.py.

The relay session state (src/main.py lines 102-106), the two forwarding
loops receive_from_twilio (lines 108-134) and send_to_twilio (lines
136-213), the interruption handler handle_speech_started_event (lines
215-229) and send_mark (lines 231-238) are embedded as pure functions over
an explicit state record.  Each inbound event is handled atomically by the
source (no await between reads and writes of the shared fields within one
handler), so the per-event handlers compose into a step function on the
shared state and a fold over event traces.
-/

/-- Python truthiness of an optional string: absent (None) and the empty
string are falsy, any other string is truthy.  This is the meaning of the
guards such as the one on line 232 of src/main.py. -/
def pyTruthy : Option String → Bool
  | none => false
  | some s => !s.isEmpty

/-- Does the pattern match the haystack starting at its head?  Helper for
the Python substring operator. -/
def matchesAt : List Char → List Char → Bool
  | [], _ => true
  | _ :: _, [] => false
  | a :: as, b :: bs => a == b && matchesAt as bs

/-- Substring containment on character lists: the semantics of the Python
expression (needle in haystack) on strings. -/
def hasSub (needle : List Char) : List Char → Bool
  | [] => needle.isEmpty
  | b :: t => matchesAt needle (b :: t) || hasSub needle t

/-- BYE_KEYWORDS, src/main.py line 26. -/
def BYE_KEYWORDS : List String :=
  ["bye", "goodbye", "see you", "talk to you later", "bye for now", "take care"]

/-- The goodbye test on line 173 of src/main.py:
any(bye in transcript_text.lower() for bye in BYE_KEYWORDS).
Lowering is modelled character by character (the ASCII case fold of
Char.toLower, which agrees with str.lower on the ASCII keyword set). -/
def byeIn (text : String) : Bool :=
  BYE_KEYWORDS.any (fun bye => hasSub bye.data (text.data.map Char.toLower))

/-- A transcript line as produced by timestamped_line. -/
structure TLine where
  role : String
  text : String
  deriving Repr, DecidableEq

/-- Models timestamped_line (src/main.py lines 49-51).  The wall-clock
prefix comes from datetime.utcnow and is outside the relay's deterministic
state; the informative content of the line - the upper-cased role tag and
the stripped text - is kept. -/
def timestamped_line (role text : String) : TLine :=
  { role := role.toUpper, text := text.trim }

/-- One content fragment of a response.done output item (src/main.py line
167): each field read with dict.get, hence optional. -/
structure ContentPiece where
  typ : Option String
  transcript : Option String
  deriving Repr, DecidableEq

/-- One output item of a response.done event (src/main.py lines 164-166). -/
structure OutputItem where
  role : Option String
  content : List ContentPiece
  deriving Repr, DecidableEq

/-- The relay session state: the five shared variables of src/main.py
lines 102-106, the process-wide transcript_log (line 47, reset per call on
line 91), the user_speech_buffer local to send_to_twilio (line 137), and
the open/closed status of the two links. -/
structure RelayState where
  stream_sid : Option String
  latest_media_timestamp : Int
  last_assistant_item : Option String
  mark_queue : List String
  response_start_timestamp_twilio : Option Int
  transcript_log : List TLine
  user_speech_buffer : List String
  openai_open : Bool
  twilio_open : Bool
  deriving Repr, DecidableEq

/-- The state at the start of a call (src/main.py lines 91, 102-106). -/
def initial_state : RelayState :=
  { stream_sid := none
    latest_media_timestamp := 0
    last_assistant_item := none
    mark_queue := []
    response_start_timestamp_twilio := none
    transcript_log := []
    user_speech_buffer := []
    openai_open := true
    twilio_open := true }

/-- Well-formed inbound events on the telephony link (the event tags
dispatched on src/main.py lines 113-124). -/
inductive TwilioEvent
  | media (timestamp : Int) (payload : String)
  | start (streamSid : String)
  | mark
  | stop
  deriving Repr, DecidableEq

/-- Well-formed inbound events on the AI link (the type tags dispatched on
src/main.py lines 146-211).  audioDelta carries the optional delta field
(line 146 checks its presence) and the optional item_id (line 159);
responseDone carries the output items (line 164) and the optional inferred
user transcript (lines 189-190); otherEvent stands for any recognised but
unhandled type such as rate_limits.updated. -/
inductive AiEvent
  | audioDelta (delta : Option String) (item_id : Option String)
  | responseDone (outputs : List OutputItem) (input_transcript : Option String)
  | inputAudioText (text : Option String)
  | speechStopped
  | committed
  | speechStarted
  | otherEvent
  deriving Repr, DecidableEq

/-- Observable effects of the relay: messages sent on either link, the
transcript handoff, and link closes. -/
inductive Output
  | aiAppend (audio : String)
  | aiTruncate (item_id : String) (content_index : Nat) (audio_end_ms : Int)
  | twMedia (streamSid : Option String) (payload : String)
  | twMark (streamSid : String)
  | twClear (streamSid : Option String)
  | twStop (streamSid : Option String)
  | uploadTranscript (lines : List TLine)
  | closeAi
  | closeTwilio
  deriving Repr, DecidableEq

def isMediaOut : Output → Bool
  | Output.twMedia _ _ => true
  | _ => false

def isMarkOut : Output → Bool
  | Output.twMark _ => true
  | _ => false

def isClearOut : Output → Bool
  | Output.twClear _ => true
  | _ => false

def isStopOut : Output → Bool
  | Output.twStop _ => true
  | _ => false

def isUploadOut : Output → Bool
  | Output.uploadTranscript _ => true
  | _ => false

def isTruncOut : Output → Bool
  | Output.aiTruncate _ _ _ => true
  | _ => false

def isCloseAiOut : Output → Bool
  | Output.closeAi => true
  | _ => false

/-- The farewell payload sent when a goodbye is detected
(src/main.py line 178). -/
def FAREWELL_PAYLOAD : String := "Goodbye, call me back if you need help."

/-- Does a content fragment trigger the goodbye branch?  Lines 168 and 173
of src/main.py: its type is audio, its transcript is truthy, and the
lowered transcript contains a goodbye keyword. -/
def pieceBye (p : ContentPiece) : Bool :=
  ((p.typ == some "audio") && pyTruthy p.transcript) && byeIn (p.transcript.getD "")

/-- The inner loop over content fragments of one output item (src/main.py
lines 167-187): returns the transcript lines appended for this item, in
order, and whether a goodbye fragment was reached (which stops all further
processing in the source via return). -/
def processPieces (role : String) : List ContentPiece → List TLine × Bool
  | [] => ([], false)
  | p :: rest =>
    if (p.typ == some "audio") && pyTruthy p.transcript then
      let t := p.transcript.getD ""
      if byeIn t then ([timestamped_line role t], true)
      else
        let r := processPieces role rest
        (timestamped_line role t :: r.1, r.2)
    else processPieces role rest

/-- The outer loop over output items of a response.done event (src/main.py
lines 165-187): lines appended in order, stopping at the first goodbye
fragment, plus the goodbye flag. -/
def processOutputs : List OutputItem → List TLine × Bool
  | [] => ([], false)
  | item :: rest =>
    let role := item.role.getD "assistant"
    let r := processPieces role item.content
    if r.2 then (r.1, true)
    else
      let r2 := processOutputs rest
      (r.1 ++ r2.1, r2.2)

/-- The response.audio.delta handler, src/main.py lines 146-161, including
the inlined send_mark (lines 231-238).  The media event is sent first
(lines 149-153, with streamSid possibly null), then
response_start_timestamp_twilio is set if unset (lines 157-158), then
last_assistant_item is set if the event carries a truthy item_id (lines
159-160), then send_mark sends a mark and appends to mark_queue only if
stream_sid is truthy (lines 231-238). -/
def audio_delta_step (st : RelayState) (payload : String) (item_id : Option String) :
    RelayState × List Output × Bool :=
  let st1 := if st.response_start_timestamp_twilio.isNone then
               { st with response_start_timestamp_twilio := some st.latest_media_timestamp }
             else st
  let st2 := if pyTruthy item_id then { st1 with last_assistant_item := item_id } else st1
  if pyTruthy st.stream_sid then
    ({ st2 with mark_queue := st2.mark_queue ++ ["responsePart"] },
     [Output.twMedia st.stream_sid payload, Output.twMark (st.stream_sid.getD "")], false)
  else
    (st2, [Output.twMedia st.stream_sid payload], false)

/-- The response.done handler, src/main.py lines 163-192.  When a goodbye
fragment is found the source sends the farewell media and stop events
(with streamSid possibly null), uploads the transcript, closes both links
and returns from the loop; otherwise the inferred user transcript, if
truthy, is appended as a user line. -/
def response_done_step (st : RelayState) (outputs : List OutputItem)
    (input_transcript : Option String) : RelayState × List Output × Bool :=
  let r := processOutputs outputs
  if r.2 then
    let log := st.transcript_log ++ r.1
    ({ st with
        transcript_log := log, openai_open := false, twilio_open := false },
     [Output.twMedia st.stream_sid FAREWELL_PAYLOAD,
      Output.twStop st.stream_sid,
      Output.uploadTranscript log,
      Output.closeAi, Output.closeTwilio], true)
  else
    let log := st.transcript_log ++ r.1
    if pyTruthy input_transcript then
      ({ st with
          transcript_log := log ++ [timestamped_line "user" (input_transcript.getD "")] },
       [], false)
    else ({ st with transcript_log := log }, [], false)

/-- The input.audio.text handler, src/main.py lines 194-197. -/
def input_audio_text_step (st : RelayState) (text : Option String) :
    RelayState × List Output × Bool :=
  if pyTruthy text then
    ({ st with user_speech_buffer := st.user_speech_buffer ++ [(text.getD "").trim] },
     [], false)
  else (st, [], false)

/-- The input_audio_buffer.speech_stopped handler, src/main.py lines
199-204. -/
def speech_stopped_step (st : RelayState) : RelayState × List Output × Bool :=
  if st.user_speech_buffer.isEmpty then (st, [], false)
  else
    ({ st with
        transcript_log := st.transcript_log ++
          [timestamped_line "user" (String.intercalate " " st.user_speech_buffer)],
        user_speech_buffer := [] }, [], false)

/-- The input_audio_buffer.committed handler, src/main.py lines 206-207. -/
def committed_step (st : RelayState) : RelayState × List Output × Bool :=
  ({ st with transcript_log := st.transcript_log ++
      [timestamped_line "user" "[Speech committed]"] }, [], false)

/-- handle_speech_started_event, src/main.py lines 215-229.  Guarded by
mark_queue non-empty and response_start_timestamp_twilio set; the truncate
is additionally guarded by last_assistant_item truthy (line 219); the
clear is sent unconditionally inside the guard, with streamSid possibly
null (line 226); then the queue is emptied and both response-tracking
fields are cleared. -/
def handle_speech_started_event (st : RelayState) : RelayState × List Output × Bool :=
  if !st.mark_queue.isEmpty && st.response_start_timestamp_twilio.isSome then
    let elapsed_time := st.latest_media_timestamp - (st.response_start_timestamp_twilio.getD 0)
    ({ st with
        mark_queue := [], last_assistant_item := none,
        response_start_timestamp_twilio := none },
     (if pyTruthy st.last_assistant_item then
        [Output.aiTruncate (st.last_assistant_item.getD "") 0 elapsed_time]
      else []) ++ [Output.twClear st.stream_sid], false)
  else (st, [], false)

/-- The input_audio_buffer.speech_started dispatch, src/main.py lines
209-211: handle_speech_started_event runs only when last_assistant_item
is truthy. -/
def speech_started_step (st : RelayState) : RelayState × List Output × Bool :=
  if pyTruthy st.last_assistant_item then handle_speech_started_event st
  else (st, [], false)

/-- One well-formed AI-link event handled by the send_to_twilio loop body,
src/main.py lines 140-211.  The Bool is true when the handler returns from
the loop (the goodbye branch). -/
def aiStep (st : RelayState) : AiEvent → RelayState × List Output × Bool
  | AiEvent.audioDelta delta item_id =>
    match delta with
    | some payload => audio_delta_step st payload item_id
    | none => (st, [], false)
  | AiEvent.responseDone outputs it => response_done_step st outputs it
  | AiEvent.inputAudioText t => input_audio_text_step st t
  | AiEvent.speechStopped => speech_stopped_step st
  | AiEvent.committed => committed_step st
  | AiEvent.speechStarted => speech_started_step st
  | AiEvent.otherEvent => (st, [], false)

/-- One well-formed telephony-link event handled by the receive_from_twilio
loop body, src/main.py lines 111-129.  The media branch fires only when
the AI socket is open (line 113); start records the stream id (line 120);
mark pops the oldest queue entry if any (lines 122-123); stop uploads the
transcript, closes the AI socket if open, and returns (lines 124-129). -/
def twilioStep (st : RelayState) : TwilioEvent → RelayState × List Output × Bool
  | TwilioEvent.media ts payload =>
    if st.openai_open then
      ({ st with latest_media_timestamp := ts }, [Output.aiAppend payload], false)
    else (st, [], false)
  | TwilioEvent.start sid => ({ st with stream_sid := some sid }, [], false)
  | TwilioEvent.mark => ({ st with mark_queue := st.mark_queue.tail }, [], false)
  | TwilioEvent.stop =>
    ({ st with openai_open := false },
     Output.uploadTranscript st.transcript_log ::
       (if st.openai_open then [Output.closeAi] else []), true)

/-- An event arriving on either link.  Each handler runs atomically over
the shared state (no suspension inside a handler in the source), so an
interleaved execution of the two loops is a sequence of these events. -/
inductive Event
  | tw (e : TwilioEvent)
  | ai (e : AiEvent)
  deriving Repr, DecidableEq

def step (st : RelayState) : Event → RelayState × List Output × Bool
  | Event.tw e => twilioStep st e
  | Event.ai e => aiStep st e

/-- The state after one event. -/
def stepState (st : RelayState) (e : Event) : RelayState := (step st e).1

/-- The state after a trace of events from both links. -/
def runState (st : RelayState) (tr : List Event) : RelayState :=
  tr.foldl stepState st

/-- One item of the raw telephony inbound stream: a well-formed event, a
malformed payload (json.loads on line 112 or the event dispatch raising,
caught only by the loop-wide handler on lines 133-134), or a transport
disconnect (WebSocketDisconnect, caught on lines 130-132). -/
inductive TwilioMsg
  | ok (e : TwilioEvent)
  | malformed
  | disconnected
  deriving Repr, DecidableEq

/-- The receive_from_twilio loop, src/main.py lines 108-134, over a finite
inbound stream.  A malformed payload raises out of the async-for into the
loop-wide except handler, which logs and returns: nothing further is
processed.  A disconnect closes the AI socket if open and returns. -/
def runTwilioLoop (st : RelayState) : List TwilioMsg → RelayState × List Output
  | [] => (st, [])
  | TwilioMsg.malformed :: _ => (st, [])
  | TwilioMsg.disconnected :: _ =>
    ({ st with openai_open := false },
     if st.openai_open then [Output.closeAi] else [])
  | TwilioMsg.ok e :: rest =>
    let r := twilioStep st e
    if r.2.2 then (r.1, r.2.1)
    else
      let r2 := runTwilioLoop r.1 rest
      (r2.1, r.2.1 ++ r2.2)

/-- One item of the raw AI inbound stream: well-formed or malformed (any
exception in the loop body is caught only by the handler on lines 212-213,
which logs and returns). -/
inductive AiMsg
  | ok (e : AiEvent)
  | malformed
  deriving Repr, DecidableEq

/-- The send_to_twilio loop, src/main.py lines 136-213, over a finite
inbound stream.  A malformed payload raises into the loop-wide except
handler which returns; the goodbye branch returns (flag true). -/
def runAiLoop (st : RelayState) : List AiMsg → RelayState × List Output
  | [] => (st, [])
  | AiMsg.malformed :: _ => (st, [])
  | AiMsg.ok e :: rest =>
    let r := aiStep st e
    if r.2.2 then (r.1, r.2.1)
    else
      let r2 := runAiLoop r.1 rest
      (r2.1, r.2.1 ++ r2.2)

/-- The five steps of the goodbye-triggered shutdown sequence, src/main.py
lines 175-187, in source order. -/
inductive ShutdownStep
  | farewellMedia
  | stopEvent
  | transcriptHandoff
  | closeAiLink
  | closeTwilioLink
  deriving Repr, DecidableEq

def goodbyeShutdownSeq : List ShutdownStep :=
  [ShutdownStep.farewellMedia, ShutdownStep.stopEvent, ShutdownStep.transcriptHandoff,
   ShutdownStep.closeAiLink, ShutdownStep.closeTwilioLink]

/-- Which shutdown steps are attempted, given which steps raise.  The
goodbye sequence in send_to_twilio (src/main.py lines 175-187) runs inside
the single function-wide try/except (lines 139 and 212) with no per-step
handler, so the first raising step transfers control to the loop-wide
handler and every later step is skipped. -/
def attemptedSteps (fails : ShutdownStep → Bool) : List ShutdownStep → List ShutdownStep
  | [] => []
  | s :: rest => if fails s then [s] else s :: attemptedSteps fails rest

/-! Supporting lemmas. -/

lemma pyTruthy_isSome (o : Option String) (h : pyTruthy o = true) : o.isSome = true := by
  cases o with
  | none => simp [pyTruthy] at h
  | some s => rfl

lemma audio_delta_stream (st : RelayState) (payload : String) (item_id : Option String) :
    (audio_delta_step st payload item_id).1.stream_sid = st.stream_sid := by
  by_cases hs : pyTruthy st.stream_sid = true <;>
  by_cases h1 : st.response_start_timestamp_twilio.isNone = true <;>
  by_cases h2 : pyTruthy item_id = true <;>
  simp [audio_delta_step, hs, h1, h2]

lemma audio_delta_queue (st : RelayState) (payload : String) (item_id : Option String) :
    (audio_delta_step st payload item_id).1.mark_queue =
      (if pyTruthy st.stream_sid then st.mark_queue ++ ["responsePart"] else st.mark_queue) := by
  by_cases hs : pyTruthy st.stream_sid = true <;>
  by_cases h1 : st.response_start_timestamp_twilio.isNone = true <;>
  by_cases h2 : pyTruthy item_id = true <;>
  simp [audio_delta_step, hs, h1, h2]

lemma audio_delta_item (st : RelayState) (payload : String) (item_id : Option String) :
    (audio_delta_step st payload item_id).1.last_assistant_item =
      (if pyTruthy item_id then item_id else st.last_assistant_item) := by
  by_cases hs : pyTruthy st.stream_sid = true <;>
  by_cases h1 : st.response_start_timestamp_twilio.isNone = true <;>
  by_cases h2 : pyTruthy item_id = true <;>
  simp [audio_delta_step, hs, h1, h2]

lemma audio_delta_outs (st : RelayState) (payload : String) (item_id : Option String) :
    (audio_delta_step st payload item_id).2.1 =
      (if pyTruthy st.stream_sid then
        [Output.twMedia st.stream_sid payload, Output.twMark (st.stream_sid.getD "")]
       else [Output.twMedia st.stream_sid payload]) := by
  by_cases hs : pyTruthy st.stream_sid = true <;>
  by_cases h1 : st.response_start_timestamp_twilio.isNone = true <;>
  by_cases h2 : pyTruthy item_id = true <;>
  simp [audio_delta_step, hs, h1, h2]

lemma audio_delta_start_isSome (st : RelayState) (payload : String) (item_id : Option String) :
    (audio_delta_step st payload item_id).1.response_start_timestamp_twilio.isSome = true := by
  cases hst : st.response_start_timestamp_twilio with
  | none =>
    by_cases hs : pyTruthy st.stream_sid = true <;>
    by_cases h2 : pyTruthy item_id = true <;>
    simp [audio_delta_step, hst, hs, h2]
  | some v =>
    by_cases hs : pyTruthy st.stream_sid = true <;>
    by_cases h2 : pyTruthy item_id = true <;>
    simp [audio_delta_step, hst, hs, h2]

lemma processPieces_bye (role : String) (ps : List ContentPiece) :
    (processPieces role ps).2 = ps.any pieceBye := by
  induction ps with
  | nil => rfl
  | cons p rest ih =>
    by_cases h1 : ((p.typ == some "audio") && pyTruthy p.transcript) = true
    · by_cases h2 : byeIn (p.transcript.getD "") = true
      · simp [processPieces, pieceBye, h1, h2]
      · simp [processPieces, pieceBye, h1, h2, ih]
    · simp [processPieces, pieceBye, h1, ih]

lemma processOutputs_bye (items : List OutputItem) :
    (processOutputs items).2 = items.any (fun it => it.content.any pieceBye) := by
  induction items with
  | nil => rfl
  | cons it rest ih =>
    by_cases hb : (processPieces (it.role.getD "assistant") it.content).2 = true
    · have hb2 : it.content.any pieceBye = true := by
        rw [← processPieces_bye (it.role.getD "assistant")]; exact hb
      simp [processOutputs, hb, hb2]
    · have hb2 : it.content.any pieceBye = false := by
        rw [← processPieces_bye (it.role.getD "assistant")]
        exact Bool.eq_false_iff.mpr hb
      simp [processOutputs, hb, hb2, ih]

/-! Claim theorems. -/

/-- Claim C1: if a SpeechStarted event arrives while last_assistant_item
is set (truthy, the guard on src/main.py line 210), mark_queue is
non-empty and response_start_timestamp_twilio is set, then the relay sends
exactly one conversation-item-truncate command to the AI link with
audio_end_ms equal to latest_media_timestamp minus
response_start_timestamp_twilio, sends exactly one clear event to the
telephony link, and afterwards last_assistant_item and
response_start_timestamp_twilio are unset and mark_queue is empty. -/
theorem speech_started_interrupt (st : RelayState) (ts : Int)
    (hitem : pyTruthy st.last_assistant_item = true)
    (hq : st.mark_queue.isEmpty = false)
    (hts : st.response_start_timestamp_twilio = some ts) :
    aiStep st AiEvent.speechStarted =
      ({ st with
          mark_queue := [], last_assistant_item := none,
          response_start_timestamp_twilio := none },
       [Output.aiTruncate (st.last_assistant_item.getD "") 0 (st.latest_media_timestamp - ts),
        Output.twClear st.stream_sid], false) := by
  simp [aiStep, speech_started_step, handle_speech_started_event, hitem, hq, hts]

def c1_state : RelayState :=
  { stream_sid := some "CA1"
    latest_media_timestamp := 800
    last_assistant_item := some "item1"
    mark_queue := ["responsePart"]
    response_start_timestamp_twilio := some 0
    transcript_log := []
    user_speech_buffer := []
    openai_open := true
    twilio_open := true }

/-- Witness for C1 at a concrete interrupted state: truncate at
audio_end_ms = 800 - 0 and a clear, then the tracking state is reset. -/
theorem speech_started_interrupt_witness :
    aiStep c1_state AiEvent.speechStarted =
      ({ c1_state with
          mark_queue := [], last_assistant_item := none,
          response_start_timestamp_twilio := none },
       [Output.aiTruncate "item1" 0 (800 - 0), Output.twClear (some "CA1")], false) :=
  speech_started_interrupt c1_state 0 rfl rfl rfl

/-- Claim C2: a response.done event one of whose output items has a
content fragment carrying spoken text (type audio, truthy transcript)
whose text contains a goodbye keyword case-insensitively makes the relay
append the transcript lines up to and including that fragment, send
exactly one farewell media event and exactly one stop event to the
telephony link, hand the transcript off exactly once, close both links,
and process nothing further: neither the remaining output items and the
inferred-user-text field of the same response (processOutputs stops at the
matching fragment and input_transcript is ignored) nor any later events on
the AI link (the result does not depend on rest). -/
theorem goodbye_terminates (st : RelayState) (outputs : List OutputItem)
    (input_transcript : Option String) (rest : List AiMsg)
    (h : outputs.any (fun it => it.content.any pieceBye) = true) :
    runAiLoop st (AiMsg.ok (AiEvent.responseDone outputs input_transcript) :: rest) =
      ({ st with
          transcript_log := st.transcript_log ++ (processOutputs outputs).1,
          openai_open := false, twilio_open := false },
       [Output.twMedia st.stream_sid FAREWELL_PAYLOAD,
        Output.twStop st.stream_sid,
        Output.uploadTranscript (st.transcript_log ++ (processOutputs outputs).1),
        Output.closeAi, Output.closeTwilio]) := by
  have hb : (processOutputs outputs).2 = true := by
    rw [processOutputs_bye]; exact h
  simp [runAiLoop, aiStep, response_done_step, hb]

def c2_items : List OutputItem :=
  [{ role := some "assistant"
     content := [{ typ := some "audio", transcript := some "Goodbye, take care." }] }]

/-- Witness for C2 on a concrete response whose only fragment says
goodbye: the farewell, stop, handoff and closes happen and the later
speech-started message is never processed. -/
theorem goodbye_terminates_witness :
    runAiLoop initial_state
        (AiMsg.ok (AiEvent.responseDone c2_items (some "hello")) ::
          [AiMsg.ok AiEvent.speechStarted]) =
      ({ initial_state with
          transcript_log := initial_state.transcript_log ++ (processOutputs c2_items).1,
          openai_open := false, twilio_open := false },
       [Output.twMedia initial_state.stream_sid FAREWELL_PAYLOAD,
        Output.twStop initial_state.stream_sid,
        Output.uploadTranscript (initial_state.transcript_log ++ (processOutputs c2_items).1),
        Output.closeAi, Output.closeTwilio]) :=
  goodbye_terminates initial_state c2_items (some "hello")
    [AiMsg.ok AiEvent.speechStarted] (by decide)

/-- Claim C3, amended: a telephony media event updates
latest_media_timestamp and forwards the payload verbatim as an
input-audio-append command only when the AI link is open; when the AI link
is closed the whole branch is skipped (the guard on src/main.py line 113
is a conjunction), so the payload is dropped and latest_media_timestamp is
NOT updated. -/
theorem media_received_update (st : RelayState) (ts : Int) (payload : String) :
    ((twilioStep st (TwilioEvent.media ts payload)).1.latest_media_timestamp
        = (if st.openai_open then ts else st.latest_media_timestamp))
    ∧ ((twilioStep st (TwilioEvent.media ts payload)).2.1
        = (if st.openai_open then [Output.aiAppend payload] else [])) := by
  by_cases h : st.openai_open = true <;> simp [twilioStep, h]

def c3_state : RelayState :=
  { initial_state with openai_open := false }

/-- Counterexample to C3 as stated: with the AI link closed, a media event
at timestamp 100 leaves latest_media_timestamp at 0 (the claim says it is
still updated to 100) and forwards nothing. -/
theorem media_received_counterexample :
    (twilioStep c3_state (TwilioEvent.media 100 "payload")).1.latest_media_timestamp = 0
    ∧ (100 : Int) ≠ 0
    ∧ (twilioStep c3_state (TwilioEvent.media 100 "payload")).2.1 = [] := by
  refine ⟨rfl, by decide, rfl⟩

/-- Claim C4, amended: every response.audio.delta event carrying a delta
produces exactly one outbound media event; the outbound mark event and the
append to mark_queue happen exactly once when stream_sid is set (truthy,
the guard of send_mark on src/main.py line 232) and not at all when it is
unset - not regardless of stream_sid. -/
theorem audio_delta_counts (st : RelayState) (payload : String) (item_id : Option String) :
    ((aiStep st (AiEvent.audioDelta (some payload) item_id)).2.1.countP isMediaOut = 1)
    ∧ ((aiStep st (AiEvent.audioDelta (some payload) item_id)).2.1.countP isMarkOut
        = (if pyTruthy st.stream_sid then 1 else 0))
    ∧ ((aiStep st (AiEvent.audioDelta (some payload) item_id)).1.mark_queue
        = (if pyTruthy st.stream_sid then st.mark_queue ++ ["responsePart"]
           else st.mark_queue)) := by
  have ho := audio_delta_outs st payload item_id
  have hq := audio_delta_queue st payload item_id
  by_cases hs : pyTruthy st.stream_sid = true <;>
    simp [aiStep, hs] at ho hq ⊢ <;>
    simp [ho, hq, isMediaOut, isMarkOut]

/-- Counterexample to C4 as stated: with stream_sid unset (the initial
state), an audio delta produces no mark event and no mark_queue append,
while the claim demands exactly one of each regardless of stream_sid. -/
theorem audio_delta_counterexample :
    initial_state.stream_sid = none
    ∧ (aiStep initial_state (AiEvent.audioDelta (some "p") (some "r1"))).2.1.countP isMarkOut = 0
    ∧ (aiStep initial_state (AiEvent.audioDelta (some "p") (some "r1"))).1.mark_queue = [] := by
  refine ⟨rfl, rfl, rfl⟩

/-- Claim C5, amended: the goodbye shutdown sequence (src/main.py lines
175-187) runs inside the single function-wide try/except of
send_to_twilio with no per-step error handling, so the first step that
raises aborts every later step; in particular a failure sending the
farewell media skips the stop event, the transcript handoff and both link
closes.  Only when no step fails are all five steps performed. -/
theorem shutdown_aborts_on_failure (fails : ShutdownStep → Bool) :
    ((∀ s, fails s = false) →
      attemptedSteps fails goodbyeShutdownSeq = goodbyeShutdownSeq)
    ∧ (fails ShutdownStep.farewellMedia = true →
      attemptedSteps fails goodbyeShutdownSeq = [ShutdownStep.farewellMedia]) := by
  constructor
  · intro h
    simp [attemptedSteps, goodbyeShutdownSeq, h]
  · intro h
    simp [attemptedSteps, goodbyeShutdownSeq, h]

def noFailures : ShutdownStep → Bool := fun _ => false

/-- Witness for C5 (amended): when no step fails, all five shutdown steps
are attempted in order. -/
theorem shutdown_aborts_on_failure_witness :
    attemptedSteps noFailures goodbyeShutdownSeq = goodbyeShutdownSeq :=
  (shutdown_aborts_on_failure noFailures).1 (fun _ => rfl)

def failsFarewell : ShutdownStep → Bool := fun s => s == ShutdownStep.farewellMedia

/-- Counterexample to C5 as stated: if the farewell media send raises,
only that step is attempted - the transcript handoff and the closing of
the telephony link are skipped, while the claim demands every step still
be attempted. -/
theorem shutdown_counterexample :
    attemptedSteps failsFarewell goodbyeShutdownSeq = [ShutdownStep.farewellMedia]
    ∧ ShutdownStep.transcriptHandoff ∉ attemptedSteps failsFarewell goodbyeShutdownSeq
    ∧ ShutdownStep.closeTwilioLink ∉ attemptedSteps failsFarewell goodbyeShutdownSeq := by
  refine ⟨rfl, by decide, by decide⟩

/-- Claim C6, amended: a malformed or unexpected payload on either link
raises out of the event dispatch into the loop-wide except handler
(src/main.py lines 130-134 and 212-213), which logs and returns: the
malformed event has no effect, and - contrary to skip-and-continue - no
subsequent event on that link is processed. -/
theorem malformed_terminates_loop (st : RelayState)
    (restTw : List TwilioMsg) (restAi : List AiMsg) :
    runTwilioLoop st (TwilioMsg.malformed :: restTw) = (st, [])
    ∧ runAiLoop st (AiMsg.malformed :: restAi) = (st, []) :=
  ⟨rfl, rfl⟩

/-- Counterexample to C6 as stated: after a malformed telephony message, a
following well-formed media event at timestamp 7 is never processed - the
state still has latest_media_timestamp 0 and nothing was forwarded,
whereas skip-and-continue would have updated it to 7 and produced an
append command. -/
theorem malformed_counterexample :
    runTwilioLoop initial_state
        [TwilioMsg.malformed, TwilioMsg.ok (TwilioEvent.media 7 "x")]
      = (initial_state, [])
    ∧ initial_state.latest_media_timestamp = 0
    ∧ (7 : Int) ≠ 0 := by
  refine ⟨rfl, rfl, by decide⟩

/-! Reachability invariants: preservation of per-state properties by every
event handler, then induction over event traces from the initial state. -/

lemma speech_started_item_start (st : RelayState)
    (h : pyTruthy st.last_assistant_item = true →
      st.response_start_timestamp_twilio.isSome = true) :
    pyTruthy (speech_started_step st).1.last_assistant_item = true →
      (speech_started_step st).1.response_start_timestamp_twilio.isSome = true := by
  unfold speech_started_step handle_speech_started_event
  by_cases hp : pyTruthy st.last_assistant_item = true
  · rw [if_pos hp]
    by_cases hg : (!st.mark_queue.isEmpty && st.response_start_timestamp_twilio.isSome) = true
    · rw [if_pos hg]
      intro hc
      simp [pyTruthy] at hc
    · rw [if_neg hg]
      exact h
  · rw [if_neg hp]
    exact h

lemma stepState_item_start (st : RelayState) (e : Event)
    (h : pyTruthy st.last_assistant_item = true →
      st.response_start_timestamp_twilio.isSome = true) :
    pyTruthy (stepState st e).last_assistant_item = true →
      (stepState st e).response_start_timestamp_twilio.isSome = true := by
  cases e with
  | tw te =>
    cases te with
    | media ts payload =>
      by_cases ho : st.openai_open = true <;>
        simp only [stepState, step, twilioStep, ho, if_true, if_false,
          Bool.false_eq_true] <;> exact h
    | start sid => exact h
    | mark => exact h
    | stop => exact h
  | ai ae =>
    cases ae with
    | audioDelta d iid =>
      cases d with
      | none => exact h
      | some payload =>
        intro _
        exact audio_delta_start_isSome st payload iid
    | responseDone outs it =>
      by_cases hb : (processOutputs outs).2 = true <;>
        by_cases hu : pyTruthy it = true <;>
        simp only [stepState, step, aiStep, response_done_step, hb, hu, if_true,
          if_false, Bool.false_eq_true] <;>
        exact h
    | inputAudioText t =>
      by_cases hp : pyTruthy t = true <;>
        simp only [stepState, step, aiStep, input_audio_text_step, hp, if_true,
          if_false, Bool.false_eq_true] <;>
        exact h
    | speechStopped =>
      by_cases hb : st.user_speech_buffer.isEmpty = true <;>
        simp only [stepState, step, aiStep, speech_stopped_step, hb, if_true,
          if_false, Bool.false_eq_true] <;>
        exact h
    | committed => exact h
    | speechStarted => exact speech_started_item_start st h
    | otherEvent => exact h

lemma runState_item_start (tr : List Event) : ∀ st : RelayState,
    (pyTruthy st.last_assistant_item = true →
      st.response_start_timestamp_twilio.isSome = true) →
    pyTruthy (runState st tr).last_assistant_item = true →
      (runState st tr).response_start_timestamp_twilio.isSome = true := by
  induction tr with
  | nil => intro st h; exact h
  | cons e rest ih =>
    intro st h
    exact ih (stepState st e) (stepState_item_start st e h)

/-- Counterexample to C7 as stated: from the initial state, one
response.audio.delta event that carries audio but no item_id (reachable,
since line 159 of src/main.py only assigns last_assistant_item when the
event has a truthy item_id) leaves response_start_timestamp_twilio set and
last_assistant_item unset - not both-or-neither. -/
theorem both_or_neither_counterexample :
    RelayState.response_start_timestamp_twilio
        (stepState initial_state (Event.ai (AiEvent.audioDelta (some "p") none))) = some 0
    ∧ RelayState.last_assistant_item
        (stepState initial_state (Event.ai (AiEvent.audioDelta (some "p") none))) = none := by
  refine ⟨rfl, rfl⟩

/-- Claim C7, amended: in every reachable relay state the two fields are
cleared together, and last_assistant_item is set only if
response_start_timestamp_twilio is set - but not conversely: an
AudioDelta without an item identity sets response_start_timestamp_twilio
alone, so after processing an event the state may have the timestamp set
while the item is unset. -/
theorem item_implies_start (tr : List Event)
    (h : pyTruthy (runState initial_state tr).last_assistant_item = true) :
    (runState initial_state tr).response_start_timestamp_twilio.isSome = true := by
  refine runState_item_start tr initial_state ?_ h
  intro hc
  simp [initial_state, pyTruthy] at hc

/-- Witness for C7 (amended) on the trace of one audio delta carrying an
item id: the item is set and the start timestamp is set with it. -/
theorem item_implies_start_witness :
    (RelayState.response_start_timestamp_twilio
        (runState initial_state
          [Event.ai (AiEvent.audioDelta (some "p") (some "r1"))])).isSome = true :=
  item_implies_start [Event.ai (AiEvent.audioDelta (some "p") (some "r1"))] rfl

lemma speech_started_queue_stream (st : RelayState)
    (h : st.mark_queue.isEmpty = false → st.stream_sid.isSome = true) :
    (speech_started_step st).1.mark_queue.isEmpty = false →
      (speech_started_step st).1.stream_sid.isSome = true := by
  unfold speech_started_step handle_speech_started_event
  by_cases hp : pyTruthy st.last_assistant_item = true
  · rw [if_pos hp]
    by_cases hg : (!st.mark_queue.isEmpty && st.response_start_timestamp_twilio.isSome) = true
    · rw [if_pos hg]
      intro hc
      simp at hc
    · rw [if_neg hg]
      exact h
  · rw [if_neg hp]
    exact h

lemma stepState_queue_stream (st : RelayState) (e : Event)
    (h : st.mark_queue.isEmpty = false → st.stream_sid.isSome = true) :
    (stepState st e).mark_queue.isEmpty = false →
      (stepState st e).stream_sid.isSome = true := by
  cases e with
  | tw te =>
    cases te with
    | media ts payload =>
      by_cases ho : st.openai_open = true <;>
        simp only [stepState, step, twilioStep, ho, if_true, if_false,
          Bool.false_eq_true] <;>
        exact h
    | start sid => intro _; rfl
    | mark =>
      intro hc
      apply h
      have hc2 : st.mark_queue.tail.isEmpty = false := hc
      cases hq : st.mark_queue with
      | nil => rw [hq] at hc2; simp at hc2
      | cons a as => simp
    | stop => exact h
  | ai ae =>
    cases ae with
    | audioDelta d iid =>
      cases d with
      | none => exact h
      | some payload =>
        simp only [stepState, step, aiStep]
        intro hc
        rw [audio_delta_stream]
        by_cases hs : pyTruthy st.stream_sid = true
        · exact pyTruthy_isSome _ hs
        · apply h
          rw [audio_delta_queue, if_neg hs] at hc
          exact hc
    | responseDone outs it =>
      by_cases hb : (processOutputs outs).2 = true <;>
        by_cases hu : pyTruthy it = true <;>
        simp only [stepState, step, aiStep, response_done_step, hb, hu, if_true,
          if_false, Bool.false_eq_true] <;>
        exact h
    | inputAudioText t =>
      by_cases hp : pyTruthy t = true <;>
        simp only [stepState, step, aiStep, input_audio_text_step, hp, if_true,
          if_false, Bool.false_eq_true] <;>
        exact h
    | speechStopped =>
      by_cases hb : st.user_speech_buffer.isEmpty = true <;>
        simp only [stepState, step, aiStep, speech_stopped_step, hb, if_true,
          if_false, Bool.false_eq_true] <;>
        exact h
    | committed => exact h
    | speechStarted => exact speech_started_queue_stream st h
    | otherEvent => exact h

lemma runState_queue_stream (tr : List Event) : ∀ st : RelayState,
    (st.mark_queue.isEmpty = false → st.stream_sid.isSome = true) →
    (runState st tr).mark_queue.isEmpty = false →
      (runState st tr).stream_sid.isSome = true := by
  induction tr with
  | nil => intro st h; exact h
  | cons e rest ih =>
    intro st h
    exact ih (stepState st e) (stepState_queue_stream st e h)

/-- Claim C10: in every reachable relay state, mark_queue is non-empty
only if stream_sid is set: the only append (send_mark, src/main.py lines
231-238) is guarded by stream_sid being truthy, and once set stream_sid
is never returned to None (a start event always assigns a stream
identifier, line 120), so the interruption path that requires a non-empty
mark_queue cannot run with stream_sid unset. -/
theorem marks_imply_stream (tr : List Event)
    (h : (runState initial_state tr).mark_queue.isEmpty = false) :
    (runState initial_state tr).stream_sid.isSome = true := by
  refine runState_queue_stream tr initial_state ?_ h
  intro hc
  simp [initial_state] at hc

/-- Witness for C10 on a trace that starts the stream and then receives
one audio delta: the queue holds one token and stream_sid is set. -/
theorem marks_imply_stream_witness :
    (runState initial_state
        [Event.tw (TwilioEvent.start "CA1"),
         Event.ai (AiEvent.audioDelta (some "p") (some "r1"))]).stream_sid.isSome = true :=
  marks_imply_stream
    [Event.tw (TwilioEvent.start "CA1"),
     Event.ai (AiEvent.audioDelta (some "p") (some "r1"))] rfl

/-- Claim C8, amended: when stream_sid is unset, only the mark event (and
its mark_queue append) is skipped - the guard of send_mark on src/main.py
line 232.  The media event for an audio delta (lines 149-153) and the
clear event during interruption handling (line 226) are still sent, with a
null streamSid, and the AI-side truncate is still attempted. -/
theorem stream_unset_skips (st : RelayState) (payload : String)
    (item_id : Option String) (ts : Int)
    (hsid : st.stream_sid = none)
    (hitem : pyTruthy st.last_assistant_item = true)
    (hq : st.mark_queue.isEmpty = false)
    (hts : st.response_start_timestamp_twilio = some ts) :
    ((aiStep st (AiEvent.audioDelta (some payload) item_id)).2.1
        = [Output.twMedia none payload])
    ∧ ((aiStep st (AiEvent.audioDelta (some payload) item_id)).1.mark_queue
        = st.mark_queue)
    ∧ ((aiStep st AiEvent.speechStarted).2.1
        = [Output.aiTruncate (st.last_assistant_item.getD "") 0
            (st.latest_media_timestamp - ts),
           Output.twClear none]) := by
  refine ⟨?_, ?_, ?_⟩
  · have := audio_delta_outs st payload item_id
    rw [hsid] at this
    simpa [aiStep, pyTruthy] using this
  · have := audio_delta_queue st payload item_id
    rw [hsid] at this
    simpa [aiStep, pyTruthy] using this
  · simp [aiStep, speech_started_step, handle_speech_started_event,
      hitem, hq, hts, hsid]

def c8_state : RelayState :=
  { stream_sid := none
    latest_media_timestamp := 5
    last_assistant_item := some "r1"
    mark_queue := ["responsePart"]
    response_start_timestamp_twilio := some 0
    transcript_log := []
    user_speech_buffer := []
    openai_open := true
    twilio_open := true }

/-- Witness for C8 (amended) at a concrete state with stream_sid unset:
the audio delta still yields a media event (with null streamSid) and no
queue append, and the interruption still yields truncate and clear. -/
theorem stream_unset_skips_witness :
    ((aiStep c8_state (AiEvent.audioDelta (some "p") (some "r1"))).2.1
        = [Output.twMedia none "p"])
    ∧ ((aiStep c8_state (AiEvent.audioDelta (some "p") (some "r1"))).1.mark_queue
        = c8_state.mark_queue)
    ∧ ((aiStep c8_state AiEvent.speechStarted).2.1
        = [Output.aiTruncate "r1" 0 (5 - 0), Output.twClear none]) :=
  stream_unset_skips c8_state "p" (some "r1") 0 rfl rfl rfl rfl

/-- Counterexample to C8 as stated: with stream_sid unset, the outbound
media event for an audio delta and the clear event during interruption
handling are both still sent (one of each), while the claim says every
telephony-side command is skipped. -/
theorem stream_unset_counterexample :
    c8_state.stream_sid = none
    ∧ (aiStep c8_state (AiEvent.audioDelta (some "p") none)).2.1.countP isMediaOut = 1
    ∧ (aiStep c8_state AiEvent.speechStarted).2.1.countP isClearOut = 1 := by
  refine ⟨rfl, rfl, rfl⟩

/-- Claim C9, amended: the transcript is handed off exactly once on a
telephony stop signal (src/main.py lines 124-129) or on detected goodbye,
but a transport-level disconnect of the telephony link (WebSocketDisconnect,
lines 130-132) closes the AI link WITHOUT handing off the transcript:
zero handoffs occur in that case, and the loop exits. -/
theorem disconnect_no_handoff (st : RelayState)
    (restA restB : List TwilioMsg) :
    ((runTwilioLoop st (TwilioMsg.disconnected :: restA)).2.countP isUploadOut = 0)
    ∧ ((runTwilioLoop st (TwilioMsg.disconnected :: restA)).1.openai_open = false)
    ∧ ((runTwilioLoop st (TwilioMsg.ok TwilioEvent.stop :: restB)).2.countP isUploadOut
        = 1) := by
  refine ⟨?_, rfl, ?_⟩
  · by_cases ho : st.openai_open = true <;>
      simp [runTwilioLoop, ho, isUploadOut]
  · by_cases ho : st.openai_open = true <;>
      simp [runTwilioLoop, twilioStep, ho, isUploadOut]

/-- Counterexample to C9 as stated: a call that starts and then suffers a
telephony disconnect (no prior stop event) produces zero transcript
handoffs - the AI link is closed but upload is never called - while the
claim demands exactly one handoff. -/
theorem disconnect_counterexample :
    (runTwilioLoop initial_state
        [TwilioMsg.ok (TwilioEvent.start "CA1"), TwilioMsg.disconnected]).2.countP
          isUploadOut = 0
    ∧ (runTwilioLoop initial_state
        [TwilioMsg.ok (TwilioEvent.start "CA1"), TwilioMsg.disconnected]).2.countP
          isCloseAiOut = 1 := by
  refine ⟨rfl, rfl⟩
